import Mathlib

/-!
Verification of the session-lifecycle core of the equity-logistics
front end.  The definitions below are a shallow embedding of the
`AuthProvider` component in `src/app/admin/layout.tsx`: the stateful
React code is modelled as pure state-passing functions, with every
network outcome (login call, logout notification, fetch-user call)
supplied as an explicit parameter, since the transport layer is an
external collaborator.
-/

namespace Auth

/-- The decoded identity record (`interface User` in the source):
`id`, `email`, optional `name`, optional `user_role`. -/
structure User where
  id : Nat
  email : String
  name : Option String
  user_role : Option String
  deriving Repr, DecidableEq

/-- The persisted Token Store contents, as read through the collaborator
interface `getToken` / `getUser` / `getRememberMe` and the
`localStorage.getItem` of the stored user id.  `none` models JS `null`. -/
structure TokenStore where
  token : Option String
  storedUser : Option User
  rememberMe : Bool
  userId : Option Nat
  deriving Repr, DecidableEq

/-- The provider's in-memory state: the `user` and `loading` React state
cells, the Token Store, and the last route pushed to the router. -/
structure AuthState where
  user : Option User
  loading : Bool
  store : TokenStore
  route : Option String
  deriving Repr, DecidableEq

/-- JS truthiness of a nullable string (`null` and `""` are falsy),
as used by the source's `if (!token)` and `if (!API_URL)` checks. -/
def strTruthy : Option String → Bool
  | none => false
  | some s => s != ""

/-- JS truthiness of a nullable number (`null` and `0` are falsy),
as used by the source's `if (!userId ...)` check. -/
def natTruthy : Option Nat → Bool
  | none => false
  | some n => n != 0

/-- Outcome of one network call: resolved, or rejected (the JS promise
throws). -/
inductive NetResult where
  | ok : NetResult
  | fail : NetResult
  deriving Repr, DecidableEq

/-- Result of `logout`: the state after the call, the returned boolean,
and whether the logout-notify POST was attempted at all. -/
structure LogoutOutcome where
  state : AuthState
  success : Bool
  notifyAttempted : Bool
  deriving Repr, DecidableEq

/-- The notify step of `logout` (source lines 120-135): the POST to
`/logout` is attempted only when a token is present (truthy), and its
failure is caught inside an inner try/catch that merely logs a warning.
Returns whether the call was attempted; the match on `notify` records
that both outcomes fall through to the same continuation. -/
def logoutNotifyStep (token : Option String) (notify : NetResult) : Bool :=
  if strTruthy token then
    match notify with
    | .ok => true
    | .fail => true
  else
    false

/-- `logout` from `src/app/admin/layout.tsx` lines 118-147.
`notify` is the outcome of the logout-notify POST (relevant only when a
token is present); `cleanupThrows` models an exception raised by the
local-cleanup statements (`removeToken` / `removeUser` / state setters /
`router.push`), which the outer try/catch converts into a `false`
return.  On a cleanup exception the source may leave a partially
mutated state; the model returns the input state there, and no theorem
below inspects the state of a failed cleanup.  On the normal path the
Token Store's token and user record are removed, the in-memory user is
nulled, the router is pushed to `/login`, and `true` is returned. -/
def logout (notify : NetResult) (cleanupThrows : Bool) (s : AuthState) :
    LogoutOutcome :=
  let attempted := logoutNotifyStep s.store.token notify
  if cleanupThrows then
    { state := s, success := false, notifyAttempted := attempted }
  else
    { state :=
        { s with
          user := none
          store := { s.store with token := none, storedUser := none }
          route := some "/login" }
      success := true
      notifyAttempted := attempted }

/-- Outcome of the `GetUser` fetch in `refreshUser`: the promise rejects
(network error, also covering a JSON-parse throw), or resolves with an
HTTP status and the parsed `data.details` array. -/
inductive FetchOutcome where
  | netError : FetchOutcome
  | response : Nat → List User → FetchOutcome
  deriving Repr, DecidableEq

/-- `response.ok` for a resolved fetch: status in [200, 300). -/
def responseOk (status : Nat) : Bool :=
  decide (200 ≤ status) && decide (status < 300)

/-- The environment a `refreshUser` call runs in: the
`NEXT_PUBLIC_API_URL` env variable, the outcome of the `GetUser` fetch
were it to be made, and the parameters of the `logout` run on a 401. -/
structure RefreshEnv where
  apiUrl : Option String
  fetchOutcome : FetchOutcome
  logoutNotify : NetResult
  cleanupThrows : Bool
  deriving Repr, DecidableEq

/-- Result of `refreshUser`: the state after the call and whether the
fetch-user network call was invoked. -/
structure RefreshOutcome where
  state : AuthState
  fetchInvoked : Bool
  deriving Repr, DecidableEq

/-- `refreshUser` from `src/app/admin/layout.tsx` lines 173-225,
browser path (the `typeof window === "undefined"` guard is out of
scope).  In order: a falsy token nulls the user and returns; a cached
user is adopted with no network call; a falsy stored user id or API URL
nulls the user and returns; otherwise the `GetUser` fetch runs — a 401
triggers the full `logout`, any other non-ok status throws and the
catch nulls the user (the store untouched), a rejected fetch is caught
the same way, and a success adopts `data.details?.[0] || null`. -/
def refreshUser (env : RefreshEnv) (s : AuthState) : RefreshOutcome :=
  if !(strTruthy s.store.token) then
    { state := { s with user := none }, fetchInvoked := false }
  else
    match s.store.storedUser with
    | some u => { state := { s with user := some u }, fetchInvoked := false }
    | none =>
      if !(natTruthy s.store.userId) || !(strTruthy env.apiUrl) then
        { state := { s with user := none }, fetchInvoked := false }
      else
        match env.fetchOutcome with
        | .netError => { state := { s with user := none }, fetchInvoked := true }
        | .response status details =>
          if status == 401 then
            { state := (logout env.logoutNotify env.cleanupThrows s).state
              fetchInvoked := true }
          else if responseOk status then
            { state := { s with user := details.head? }, fetchInvoked := true }
          else
            { state := { s with user := none }, fetchInvoked := true }

/-- The mount-time `checkAuth` from `src/app/admin/layout.tsx`
lines 80-106.  `isAuth` is the boolean returned by the Token Store
collaborator's `isAuthenticated()` (its implementation lives outside
`src/`; the theorems below hold for either value).  `checkAuth` sets
`loading` true, returns early with a null user when not authenticated,
otherwise awaits `refreshUser`; the `finally` clause sets `loading`
false on every path. -/
def checkAuth (isAuth : Bool) (env : RefreshEnv) (s : AuthState) :
    RefreshOutcome :=
  let s0 := { s with loading := true }
  if !isAuth then
    { state := { s0 with user := none, loading := false }, fetchInvoked := false }
  else
    let r := refreshUser env s0
    { state := { r.state with loading := false }, fetchInvoked := r.fetchInvoked }

/-- The provider's state at mount (source lines 68-73): `user` starts
`null`, `loading` starts `true`, no route pushed yet. -/
def initialAuthState (ts : TokenStore) : AuthState :=
  { user := none, loading := true, store := ts, route := none }

/-- Modelled from the spec: the `useSessionTimeout` hook
(`src/hooks/useSessionTimeout`, not under `src/`) runs its countdown
exactly when the `isAuthenticated` prop passed to it is true, and the
layout passes `isAuthenticated: !!user` (source line 170).  So the
countdown is armed in a given observable state exactly when the
in-memory user is non-null. -/
def countdownArmed (s : AuthState) : Bool :=
  s.user.isSome

/-- The observable states of one mount-time reconciliation: the initial
render state and the state after `checkAuth` completes.  Per the spec's
single-threaded run-to-completion model, renders (and hence the hook's
arming decision) observe only these snapshots; every await-suspension
point inside `checkAuth` still has the user null, so those intermediate
snapshots coincide with the initial one. -/
def mountTrace (isAuth : Bool) (env : RefreshEnv) (ts : TokenStore) :
    List AuthState :=
  [initialAuthState ts, (checkAuth isAuth env (initialAuthState ts)).state]

/-- `getSessionTimeout` from `src/app/admin/layout.tsx` lines 154-164:
14 days in minutes under remember-me, else 2 hours in minutes.  The
remember-me flag is read from the Token Store (`getRememberMe`). -/
def getSessionTimeout (ts : TokenStore) : Nat :=
  if ts.rememberMe then
    14 * 24 * 60
  else
    2 * 60

/-- The arguments the layout passes to the `useSessionTimeout` hook
(source lines 166-171). -/
structure SessionTimeoutArgs where
  timeoutInMinutes : Nat
  warningInSeconds : Nat
  deriving Repr, DecidableEq

/-- The hook call site (source lines 166-171): duration from
`getSessionTimeout`, warning window the literal 30 seconds. -/
def sessionTimeoutArgs (ts : TokenStore) : SessionTimeoutArgs :=
  { timeoutInMinutes := getSessionTimeout ts, warningInSeconds := 30 }

/-- Payload of a successful `loginUser` call: the user record and the
bearer token. -/
structure LoginData where
  user : User
  token : String
  deriving Repr, DecidableEq

/-- Result of `login`: the state after the call and the promise outcome
(`Except.error e` models a rethrown error `e`). -/
structure LoginOutcome where
  state : AuthState
  result : Except String Unit

/-- `login` from `src/app/admin/layout.tsx` lines 227-252, with the
source's default parameter `rememberMe = false`.  `outcome` is the
result of `await loginUser(email, password, rememberMe)`.  On error the
catch logs and rethrows the same error, with nothing mutated (the throw
is the first statement of the try block).  On success the user state is
set and the router is pushed to `/admin` for the `admin` role, else to
`/dashboard`.  The store update is modelled from the spec: `loginUser`
(`@/lib/auth`, not under `src/`) persists the token, the remember-me
flag and the user snapshot. -/
def login (outcome : Except String LoginData) (s : AuthState)
    (rememberMe : Bool := false) : LoginOutcome :=
  match outcome with
  | .error e => { state := s, result := .error e }
  | .ok data =>
    { state :=
        { s with
          user := some data.user
          store :=
            { s.store with
              token := some data.token
              storedUser := some data.user
              rememberMe := rememberMe }
          route :=
            if data.user.user_role == some "admin" then
              some "/admin"
            else
              some "/dashboard" }
      result := .ok () }

/-! ## Claim theorems -/

/-- Claim C1: the logout-notify network call is best-effort — for every
notify outcome, `logout` (with the local cleanup not throwing) still
clears the Token Store's token and user record, nulls the in-memory
user, and returns `true`; and `logout` returns `false` exactly when
the local cleanup path throws, never because of the notification. -/
theorem logout_best_effort :
    ∀ (notify : NetResult) (s : AuthState),
      ((logout notify false s).success = true
        ∧ (logout notify false s).state.user = none
        ∧ (logout notify false s).state.store.token = none
        ∧ (logout notify false s).state.store.storedUser = none)
      ∧ ∀ ct : Bool, ((logout notify ct s).success = false ↔ ct = true) := by
  intro notify s
  refine ⟨⟨rfl, rfl, rfl, rfl⟩, ?_⟩
  intro ct
  cases ct <;> simp [logout]

/-- Claim C5: the hook is called with a countdown duration of exactly
14×24×60 minutes when the persisted remember-me flag is true and
exactly 2×60 minutes when it is false, and a warning window of exactly
30 seconds, whatever the rest of the Token Store holds. -/
theorem sessionTimeoutArgs_constants :
    ∀ ts : TokenStore,
      (sessionTimeoutArgs { ts with rememberMe := true }).timeoutInMinutes
          = 14 * 24 * 60
      ∧ (sessionTimeoutArgs { ts with rememberMe := false }).timeoutInMinutes
          = 2 * 60
      ∧ (sessionTimeoutArgs ts).warningInSeconds = 30 := by
  intro ts
  exact ⟨rfl, rfl, rfl⟩

/-- Claim C6: when the Identity Client rejects the credentials, `login`
rethrows the same error and the whole state — user, Token Store,
route — is exactly what it was before the call (in particular a null
user stays null and no navigation is triggered). -/
theorem login_error_atomic :
    ∀ (e : String) (rm : Bool) (s : AuthState),
      (login (Except.error e) s rm).result = Except.error e
      ∧ (login (Except.error e) s rm).state = s := by
  intro e rm s
  exact ⟨rfl, rfl⟩

/-- Claim C9: `login` with the `rememberMe` argument omitted is the very
call with `rememberMe = false`; and on success the persisted
remember-me flag is `false`, so `getSessionTimeout` selects the short
2×60 = 120 minute policy. -/
theorem login_default_rememberMe :
    (∀ (o : Except String LoginData) (s : AuthState), login o s = login o s false)
    ∧ ∀ (d : LoginData) (s : AuthState),
        (login (Except.ok d) s).state.store.rememberMe = false
        ∧ getSessionTimeout (login (Except.ok d) s).state.store = 2 * 60 := by
  refine ⟨fun o s => rfl, fun d s => ⟨rfl, rfl⟩⟩

/-- Claim C10: `logout` called while the Token Store holds no token
attempts no network notification, yet still removes the stored token
and user record, nulls the in-memory user, navigates to `/login`, and
returns `true`. -/
theorem logout_without_token (notify : NetResult) (s : AuthState)
    (h : s.store.token = none) :
    (logout notify false s).notifyAttempted = false
    ∧ (logout notify false s).success = true
    ∧ (logout notify false s).state.user = none
    ∧ (logout notify false s).state.store.token = none
    ∧ (logout notify false s).state.store.storedUser = none
    ∧ (logout notify false s).state.route = some "/login" := by
  refine ⟨?_, rfl, rfl, rfl, rfl, rfl⟩
  simp [logout, logoutNotifyStep, strTruthy, h]

/-- Claim C2: with a (truthy) token and a cached user record in the
Token Store, `refreshUser` adopts the cached record without invoking
the fetch-user network call, and so does the mount-time `checkAuth`
around it, for either `isAuthenticated()` value. -/
theorem refreshUser_cached_fast_path (env : RefreshEnv) (s : AuthState)
    (u : User) (isAuth : Bool)
    (htok : strTruthy s.store.token = true)
    (hu : s.store.storedUser = some u) :
    (refreshUser env s).state.user = some u
    ∧ (refreshUser env s).fetchInvoked = false
    ∧ (checkAuth isAuth env s).fetchInvoked = false := by
  cases isAuth <;> simp [refreshUser, checkAuth, htok, hu]

/-- Claim C3: when the fetch-user call answers 401, `refreshUser` runs
the full logout sequence — the user ends null, the Token Store's token
and user record are removed, and the router is pushed to `/login`. -/
theorem refreshUser_401_forces_logout (env : RefreshEnv) (s : AuthState)
    (details : List User)
    (htok : strTruthy s.store.token = true)
    (hnu : s.store.storedUser = none)
    (hid : natTruthy s.store.userId = true)
    (hurl : strTruthy env.apiUrl = true)
    (hf : env.fetchOutcome = FetchOutcome.response 401 details)
    (hct : env.cleanupThrows = false) :
    (refreshUser env s).state.user = none
    ∧ (refreshUser env s).state.store.token = none
    ∧ (refreshUser env s).state.store.storedUser = none
    ∧ (refreshUser env s).state.route = some "/login" := by
  simp [refreshUser, htok, hnu, hid, hurl, hf, hct, logout]

/-- A fetch outcome in which the identity fetch fails other than by a
401, or succeeds but carries no user record: the promise rejects, or
the status is non-401 and either not ok or the `details` array is
empty. -/
def nonAuthFailure : FetchOutcome → Bool
  | .netError => true
  | .response status details =>
      status != 401 && (!(responseOk status) || details.isEmpty)

/-- Concrete user record, for witnesses. -/
def exUser : User :=
  { id := 1, email := "a@example.com", name := none, user_role := some "admin" }

/-- Concrete Token Store holding a token and a cached user. -/
def exStoreCached : TokenStore :=
  { token := some "tok", storedUser := some exUser, rememberMe := false
    userId := some 1 }

/-- Concrete Token Store holding a token but no cached user. -/
def exStoreNoCache : TokenStore :=
  { token := some "tok", storedUser := none, rememberMe := false
    userId := some 1 }

/-- Concrete environment whose fetch would reject with a network error. -/
def exEnvNet : RefreshEnv :=
  { apiUrl := some "https://api.example.com", fetchOutcome := .netError
    logoutNotify := .ok, cleanupThrows := false }

/-- Concrete environment whose fetch answers 401. -/
def exEnv401 : RefreshEnv :=
  { apiUrl := some "https://api.example.com"
    fetchOutcome := .response 401 [], logoutNotify := .ok
    cleanupThrows := false }

/-- Concrete environment whose fetch answers a 500 server error. -/
def exEnv500 : RefreshEnv :=
  { apiUrl := some "https://api.example.com"
    fetchOutcome := .response 500 [], logoutNotify := .ok
    cleanupThrows := false }

/-- Witness for `refreshUser_cached_fast_path` at a concrete state. -/
theorem refreshUser_cached_fast_path_witness :
    strTruthy (initialAuthState exStoreCached).store.token = true
    ∧ (initialAuthState exStoreCached).store.storedUser = some exUser
    ∧ ((refreshUser exEnvNet (initialAuthState exStoreCached)).state.user
          = some exUser
        ∧ (refreshUser exEnvNet (initialAuthState exStoreCached)).fetchInvoked
          = false
        ∧ (checkAuth true exEnvNet (initialAuthState exStoreCached)).fetchInvoked
          = false) :=
  ⟨rfl, rfl,
    refreshUser_cached_fast_path exEnvNet (initialAuthState exStoreCached)
      exUser true rfl rfl⟩

/-- Witness for `refreshUser_401_forces_logout` at a concrete state. -/
theorem refreshUser_401_forces_logout_witness :
    strTruthy (initialAuthState exStoreNoCache).store.token = true
    ∧ (initialAuthState exStoreNoCache).store.storedUser = none
    ∧ natTruthy (initialAuthState exStoreNoCache).store.userId = true
    ∧ strTruthy exEnv401.apiUrl = true
    ∧ exEnv401.fetchOutcome = FetchOutcome.response 401 []
    ∧ exEnv401.cleanupThrows = false
    ∧ ((refreshUser exEnv401 (initialAuthState exStoreNoCache)).state.user = none
        ∧ (refreshUser exEnv401
            (initialAuthState exStoreNoCache)).state.store.token = none
        ∧ (refreshUser exEnv401
            (initialAuthState exStoreNoCache)).state.store.storedUser = none
        ∧ (refreshUser exEnv401 (initialAuthState exStoreNoCache)).state.route
          = some "/login") :=
  ⟨rfl, rfl, rfl, rfl, rfl, rfl,
    refreshUser_401_forces_logout exEnv401 (initialAuthState exStoreNoCache)
      [] rfl rfl rfl rfl rfl rfl⟩

/-- Claim C4, counterexample: with a token, no cached user, and a fetch
answering a non-401 error (HTTP 500), `refreshUser` does null the user
but leaves the Token Store untouched — the token is *not* cleared, so
the claim that the persisted state is cleared is false on the code. -/
theorem refreshUser_non401_counterexample :
    (refreshUser exEnv500 (initialAuthState exStoreNoCache)).fetchInvoked = true
    ∧ (refreshUser exEnv500 (initialAuthState exStoreNoCache)).state.user = none
    ∧ (refreshUser exEnv500
        (initialAuthState exStoreNoCache)).state.store.token = some "tok"
    ∧ ¬((refreshUser exEnv500
        (initialAuthState exStoreNoCache)).state.store.token = none) := by
  refine ⟨rfl, rfl, rfl, ?_⟩
  intro h
  simp [refreshUser, exEnv500, initialAuthState, exStoreNoCache, strTruthy,
    natTruthy, responseOk, logout] at h

/-- Claim C4 as amended: when a token exists but no identity can be
resolved through the fetch — the fetch fails with a non-401 error, or
succeeds but yields no user record — the session settles Anonymous
(user null), but the Token Store is left unchanged; only the 401 path
clears it. -/
theorem refreshUser_non401_fails_closed (env : RefreshEnv) (s : AuthState)
    (htok : strTruthy s.store.token = true)
    (hnu : s.store.storedUser = none)
    (hid : natTruthy s.store.userId = true)
    (hurl : strTruthy env.apiUrl = true)
    (hf : nonAuthFailure env.fetchOutcome = true) :
    (refreshUser env s).state.user = none
    ∧ (refreshUser env s).state.store = s.store
    ∧ (refreshUser env s).fetchInvoked = true := by
  cases hfo : env.fetchOutcome with
  | netError => simp [refreshUser, htok, hnu, hid, hurl, hfo]
  | response status details =>
    rw [hfo] at hf
    simp only [nonAuthFailure, Bool.and_eq_true, bne_iff_ne, ne_eq,
      Bool.or_eq_true, Bool.not_eq_true', List.isEmpty_iff] at hf
    obtain ⟨h401, hrest⟩ := hf
    have h401b : (status == 401) = false := by
      simp [h401]
    rcases hrest with hok | hempty
    · simp [refreshUser, htok, hnu, hid, hurl, hfo, h401b, hok]
    · subst hempty
      simp [refreshUser, htok, hnu, hid, hurl, hfo, h401b]

/-- Witness for `refreshUser_non401_fails_closed` at a concrete state. -/
theorem refreshUser_non401_fails_closed_witness :
    strTruthy (initialAuthState exStoreNoCache).store.token = true
    ∧ (initialAuthState exStoreNoCache).store.storedUser = none
    ∧ natTruthy (initialAuthState exStoreNoCache).store.userId = true
    ∧ strTruthy exEnvNet.apiUrl = true
    ∧ nonAuthFailure exEnvNet.fetchOutcome = true
    ∧ ((refreshUser exEnvNet (initialAuthState exStoreNoCache)).state.user = none
        ∧ (refreshUser exEnvNet (initialAuthState exStoreNoCache)).state.store
          = (initialAuthState exStoreNoCache).store
        ∧ (refreshUser exEnvNet (initialAuthState exStoreNoCache)).fetchInvoked
          = true) :=
  ⟨rfl, rfl, rfl, rfl, rfl,
    refreshUser_non401_fails_closed exEnvNet (initialAuthState exStoreNoCache)
      rfl rfl rfl rfl rfl⟩

/-- Concrete Token Store with no token, for witnesses. -/
def emptyStore : TokenStore :=
  { token := none, storedUser := none, rememberMe := false, userId := none }

/-- Witness for `logout_without_token` at a concrete state. -/
theorem logout_without_token_witness :
    (initialAuthState emptyStore).store.token = none
    ∧ ((logout NetResult.fail false (initialAuthState emptyStore)).notifyAttempted
          = false
        ∧ (logout NetResult.fail false (initialAuthState emptyStore)).success = true
        ∧ (logout NetResult.fail false (initialAuthState emptyStore)).state.user
          = none
        ∧ (logout NetResult.fail false
            (initialAuthState emptyStore)).state.store.token = none
        ∧ (logout NetResult.fail false
            (initialAuthState emptyStore)).state.store.storedUser = none
        ∧ (logout NetResult.fail false (initialAuthState emptyStore)).state.route
          = some "/login") :=
  ⟨rfl, logout_without_token NetResult.fail (initialAuthState emptyStore) rfl⟩

/-- The `finally` clause of `checkAuth` sets `loading` false on every
path. -/
theorem checkAuth_loading_false (isAuth : Bool) (env : RefreshEnv)
    (s : AuthState) :
    (checkAuth isAuth env s).state.loading = false := by
  cases isAuth <;> simp [checkAuth]

/-- Claim C7: in every mount-time execution, every observable state in
which the countdown is armed has `loading = false` — the reconciliation
completes and drops the loading flag before the countdown can run. -/
theorem mount_never_armed_while_loading :
    ∀ (isAuth : Bool) (env : RefreshEnv) (ts : TokenStore),
      (mountTrace isAuth env ts).all
        (fun st => !(countdownArmed st && st.loading)) = true := by
  intro isAuth env ts
  simp [mountTrace, countdownArmed, initialAuthState, checkAuth_loading_false]

/-- Claim C8: with no token in the Token Store at mount, `checkAuth`
settles on a null user with `loading = false` (for either
`isAuthenticated()` value), and no observable state of the mount trace
ever has the countdown armed. -/
theorem mount_without_token_anonymous (isAuth : Bool) (env : RefreshEnv)
    (ts : TokenStore) (h : ts.token = none) :
    (checkAuth isAuth env (initialAuthState ts)).state.user = none
    ∧ (checkAuth isAuth env (initialAuthState ts)).state.loading = false
    ∧ (mountTrace isAuth env ts).all (fun st => !(countdownArmed st)) = true := by
  cases isAuth <;>
    simp [checkAuth, refreshUser, mountTrace, countdownArmed, initialAuthState,
      strTruthy, h]

/-- Witness for `mount_without_token_anonymous` at a concrete state. -/
theorem mount_without_token_anonymous_witness :
    emptyStore.token = none
    ∧ ((checkAuth true exEnvNet (initialAuthState emptyStore)).state.user = none
        ∧ (checkAuth true exEnvNet (initialAuthState emptyStore)).state.loading
          = false
        ∧ (mountTrace true exEnvNet emptyStore).all
            (fun st => !(countdownArmed st)) = true) :=
  ⟨rfl, mount_without_token_anonymous true exEnvNet emptyStore rfl⟩

end Auth
